import Mathlib

/-!
Verification of the local storage adapter
(apps/nestjs-backend/src/features/attachments/plugins/local.ts).

The TypeScript class LocalStorage is shallowly embedded: time is passed
explicitly as epoch seconds (the code always works with
Math.floor(Date.now() / 1000)), the random token generator and the system
clock are externalized as arguments, the TTL cache read is passed as the
Option value the cache returned, and filesystem state is an association
list from paths to byte counts.  JavaScript truthiness on numbers is
modelled as being nonzero and on strings as being nonempty.
-/

namespace LocalStorage

/-- Error taxonomy of the adapter: each constructor corresponds to one of
the BadRequestException messages thrown in local.ts, plus the I/O and
probe failures that propagate out of fs-extra and sharp. -/
inductive StorageError where
  | invalidToken
  | tokenExpired
  | sizeMismatch
  | typeMismatch
  | decryptError
  | ioError
  | probeError
  deriving DecidableEq, Repr

/-- Response headers embedded in a read token (IRespHeaders). -/
abbrev IRespHeaders := List (String × String)

/-- Payload of the read-access token (interface ITokenEncryptor in
local.ts): expiresDate in epoch seconds, -1 meaning never expires, and
optional response headers. -/
structure ITokenEncryptor where
  expiresDate : Int
  respHeaders : Option IRespHeaders
  deriving DecidableEq, Repr

/-- Entry written to the TTL cache by presigned and read back by
validateToken (the CachedUploadValidation record of the spec). -/
structure CachedUploadValidation where
  expiresDate : Nat
  contentLength : Nat
  contentType : String
  deriving DecidableEq, Repr

/-- Uploaded file handed to validateToken (ILocalFileUpload). -/
structure ILocalFileUpload where
  size : Nat
  mimetype : String
  path : String
  deriving DecidableEq, Repr

/-- Presign request parameters (IPresignParams). -/
structure IPresignParams where
  contentType : String
  contentLength : Nat
  hash : Option String
  expiresIn : Option Nat
  deriving DecidableEq, Repr

/-- join of path.join for the simple relative segments used here. -/
def pathJoin (a b : String) : String := a ++ "/" ++ b

/-- getUploadUrl of local.ts. -/
def getUploadUrl (token : String) : String :=
  "/api/attachments/upload/" ++ token

/-- Required request headers of the presign response. -/
structure RequestHeaders where
  contentType : String
  contentLength : Nat
  deriving DecidableEq, Repr

/-- Presign response (the PresignedUpload record of the spec). -/
structure PresignedUpload where
  token : String
  path : String
  url : String
  uploadMethod : String
  requestHeaders : RequestHeaders
  deriving DecidableEq, Repr

/-- One write into the TTL cache: key, value and TTL in seconds, exactly
the three arguments local.ts passes to cacheService.set. -/
structure CacheWrite where
  key : String
  value : CachedUploadValidation
  ttl : Nat
  deriving DecidableEq, Repr

/-- presigned of local.ts.  The generated random token and the current
epoch time are inputs; defaultExpire stands for
second(this.config.tokenExpireIn).  Returns the cache write it performs
together with the response.  The bucket parameter is received (as
_bucket in the source) and never used. -/
def presigned (_bucket : String) (dir : String) (params : IPresignParams)
    (token : String) (now : Nat) (defaultExpire : Nat) :
    CacheWrite × PresignedUpload :=
  let filename := params.hash.getD token
  let expiresIn := params.expiresIn.getD defaultExpire
  let write : CacheWrite :=
    { key := "attachment:local-signature:" ++ token
      value :=
        { expiresDate := now + expiresIn
          contentLength := params.contentLength
          contentType := params.contentType }
      ttl := expiresIn }
  let path := pathJoin dir filename
  (write,
    { token := token
      path := path
      url := getUploadUrl token
      uploadMethod := "PUT"
      requestHeaders :=
        { contentType := params.contentType
          contentLength := params.contentLength } })

/-- validateToken of local.ts.  validateMeta is the value the TTL cache
returned for the key derived from the token (none when absent or already
evicted).  The truthiness guards of the source are kept: the size check
runs only when the cached contentLength is nonzero, the type check only
when the uploaded mimetype is nonempty. -/
def validateToken (now : Nat) (validateMeta : Option CachedUploadValidation)
    (file : ILocalFileUpload) : Except StorageError Unit :=
  match validateMeta with
  | none => .error .invalidToken
  | some m =>
    if now > m.expiresDate then .error .tokenExpired
    else if m.contentLength ≠ 0 ∧ m.contentLength ≠ file.size then
      .error .sizeMismatch
    else if file.mimetype ≠ "" ∧ file.mimetype ≠ m.contentType then
      .error .typeMismatch
    else .ok ()

/-- Modelled from the spec: the Encryptor class
(apps/nestjs-backend/src/utils/encryptor.ts) is not part of the source
sample, only its caller local.ts is.  Section 4.2 of the spec describes a
symmetric, authenticated codec keyed by a configured secret: encrypt
produces an opaque tamper-evident token, decrypt recovers the exact
payload or fails when integrity verification fails.  The token is
modelled as the payload together with an authentication tag computed
from the secret key and the payload. -/
structure Token where
  payload : ITokenEncryptor
  tag : Nat
  deriving DecidableEq, Repr

/-- Modelled from the spec: the authentication tag over a payload under a
secret key (stands for the MAC of the authenticated encryption). -/
def macTag (key : Nat) (p : ITokenEncryptor) : Nat :=
  key + 31 * p.expiresDate.natAbs +
    7 * (match p.respHeaders with
         | none => 0
         | some hs => hs.length + (hs.map (fun kv => kv.1.length + kv.2.length)).sum)

/-- Modelled from the spec: Encryptor.encrypt. -/
def Encryptor.encrypt (key : Nat) (p : ITokenEncryptor) : Token :=
  ⟨p, macTag key p⟩

/-- Modelled from the spec: Encryptor.decrypt recovers the exact payload
when the tag verifies and fails otherwise. -/
def Encryptor.decrypt (key : Nat) (t : Token) : Except Unit ITokenEncryptor :=
  if t.tag = macTag key t.payload then .ok t.payload else .error ()

/-- Body of the try block of verifyReadToken in local.ts: decrypt (whose
failure surfaces here as decryptError), then throw TokenExpired when the
embedded expiry is positive and already elapsed, otherwise return the
embedded response headers. -/
def verifyReadTokenInner (key : Nat) (now : Int) (token : Token) :
    Except StorageError (Option IRespHeaders) :=
  match Encryptor.decrypt key token with
  | .error _ => .error .decryptError
  | .ok p =>
    if p.expiresDate > 0 ∧ now > p.expiresDate then .error .tokenExpired
    else .ok p.respHeaders

/-- verifyReadToken of local.ts.  The whole body sits inside a try/catch
whose catch rethrows every failure as the InvalidToken
BadRequestException, so any error of the inner computation, the
TokenExpired throw included, reaches the caller as InvalidToken. -/
def verifyReadToken (key : Nat) (now : Int) (token : Token) :
    Except StorageError (Option IRespHeaders) :=
  match verifyReadTokenInner key now token with
  | .ok v => .ok v
  | .error _ => .error .invalidToken

/-- readPath static field of LocalStorage. -/
def readPath : String := "/api/attachments/read"

/-- getUrl of local.ts: encrypts the payload into a token and builds the
read URL, appending the response-content-disposition parameter when the
payload carries a Content-Disposition header. -/
def getUrl (key : Nat) (bucket path : String) (params : ITokenEncryptor) :
    String :=
  let token := Encryptor.encrypt key params
  let disposition := (params.respHeaders.getD []).lookup "Content-Disposition"
  pathJoin (pathJoin readPath bucket) path ++ "?token=" ++
    toString token.payload.expiresDate ++ ":" ++ toString token.tag ++
    (match disposition with
     | some d => "&response-content-disposition=" ++ d
     | none => "")

/-- Entry of the attachment:upload cache read by getObjectMeta. -/
structure UploadCacheEntry where
  mimetype : String
  hash : String
  size : Nat
  deriving DecidableEq, Repr

/-- Object metadata returned by getObjectMeta (IObjectMeta). -/
structure IObjectMeta where
  hash : String
  mimetype : String
  size : Nat
  url : String
  width : Option Nat
  height : Option Nat
  deriving DecidableEq, Repr

/-- getFileMate of local.ts: probes the file with sharp and returns its
width and height; the probe itself is externalized as an argument since
sharp is an external library, and a probe failure is a failure of this
call (there is no exception handling around it in the source). -/
def getFileMate (probe : String → Except Unit (Option Nat × Option Nat))
    (path : String) : Except StorageError (Option Nat × Option Nat) :=
  match probe path with
  | .error _ => .error .probeError
  | .ok wh => .ok wh

/-- JavaScript String.prototype.startsWith, as used on the mimetype in
getObjectMeta, modelled over the character lists of the strings. -/
def jsStartsWith (s p : String) : Bool := p.data.isPrefixOf s.data

/-- getObjectMeta of local.ts.  uploadCache is the value the cache
returned for the attachment:upload key of the token.  When the mimetype
starts with image/, the sharp probe runs and its failure propagates out
of getObjectMeta unhandled. -/
def getObjectMeta (probe : String → Except Unit (Option Nat × Option Nat))
    (key : Nat) (storageDir : String) (uploadCache : Option UploadCacheEntry)
    (bucket path : String) : Except StorageError IObjectMeta :=
  match uploadCache with
  | none => .error .invalidToken
  | some c =>
    let meta : IObjectMeta :=
      { hash := c.hash
        mimetype := c.mimetype
        size := c.size
        url := getUrl key bucket path
          { expiresDate := -1
            respHeaders := some [("Content-Type", c.mimetype)] }
        width := none
        height := none }
    if ¬ jsStartsWith c.mimetype "image/" then .ok meta
    else
      match getFileMate probe (pathJoin (pathJoin storageDir bucket) path) with
      | .error e => .error e
      | .ok (w, h) => .ok { meta with width := w, height := h }

/-- Filesystem state: each path maps to the number of bytes of the file
stored there, none when no file exists at the path. -/
def FS : Type := String → Option Nat

/-- Writing a file of n bytes at a path. -/
def FS.setFile (fs : FS) (p : String) (n : Nat) : FS :=
  fun q => if q = p then some n else fs q

/-- fse.remove and fs.unlinkSync: the file at the path is gone. -/
def FS.removeFile (fs : FS) (p : String) : FS :=
  fun q => if q = p then none else fs q

/-- deleteFile of local.ts: unlink only when the path exists (the effect
on the state equals unconditional removal). -/
def deleteFile (fs : FS) (p : String) : FS :=
  if (fs p).isSome then FS.removeFile fs p else fs

/-- save of local.ts (the relocate step): copies the file into the
storage directory, then removes the source.  copyOk externalizes
whether fse.copy succeeds; a copy whose source is missing fails too.
When the copy fails, fse.remove is never reached, so the state is
returned untouched and the IOError surfaces; pathCfg stands for
this.path in the returned join. -/
def save (fs : FS) (copyOk : Bool) (storageDir pathCfg : String)
    (filePath rename : String) : FS × Except StorageError String :=
  let newFilePath := pathJoin storageDir rename
  if copyOk then
    match fs filePath with
    | some n =>
      let fs1 := FS.setFile fs newFilePath n
      let fs2 := FS.removeFile fs1 filePath
      (fs2, .ok (pathJoin pathCfg rename))
    | none => (fs, .error .ioError)
  else (fs, .error .ioError)

/-- Outcome of consuming a readable stream: the number of bytes the
writer has flushed to the temporary file when the stream finishes or
errors, and whether it errored mid-transfer. -/
structure StreamEvents where
  written : Nat
  errored : Bool
  deriving DecidableEq, Repr

/-- The readable-stream branch of uploadFile in local.ts.  The temporary
file lives at temporaryDir/tempName.  On a stream error the source
calls this.deleteFile(path) on the destination path argument, not on
temPath, and rejects; on success it hashes the temporary file (hashFn
externalizes FileUtils.getHash over the written bytes) and relocates it
via save into bucket/path. -/
def uploadFileStream (hashFn : Nat → String) (fs : FS) (copyOk : Bool)
    (temporaryDir storageDir pathCfg bucket path tempName : String)
    (ev : StreamEvents) : FS × Except StorageError (String × String) :=
  let temPath := pathJoin temporaryDir tempName
  let fs1 := FS.setFile fs temPath ev.written
  if ev.errored then
    (deleteFile fs1 path, .error .ioError)
  else
    let hash := hashFn ev.written
    match save fs1 copyOk storageDir pathCfg temPath (pathJoin bucket path) with
    | (fs2, .ok _) => (fs2, .ok (hash, path))
    | (fs2, .error e) => (fs2, .error e)

/-- Outcome of consuming the incoming request in saveTemporaryFile. -/
structure ReqEvents where
  written : Nat
  contentType : String
  errored : Bool
  deriving DecidableEq, Repr

/-- saveTemporaryFile of local.ts: streams the request body into
temporaryDir/tempName; on a request or sink error it deletes that
temporary file and rejects, on end it resolves with the size, the
declared content type and the temporary path. -/
def saveTemporaryFile (fs : FS) (temporaryDir tempName : String)
    (ev : ReqEvents) : FS × Except StorageError ILocalFileUpload :=
  let path := pathJoin temporaryDir tempName
  let fs1 := FS.setFile fs path ev.written
  if ev.errored then
    (deleteFile fs1 path, .error .ioError)
  else
    (fs1, .ok ⟨ev.written, ev.contentType, path⟩)

end LocalStorage

namespace LocalStorage

/-- Claim C5: whenever the cached entry for a presigned token is still
readable from the TTL cache but the current time is strictly after the
stored expiresDate, validateToken fails with TokenExpired, whatever the
uploaded file looks like (the expiry check precedes the size and type
checks). -/
theorem validateToken_expired (now : Nat) (m : CachedUploadValidation)
    (file : ILocalFileUpload) (h : m.expiresDate < now) :
    validateToken now (some m) file = .error .tokenExpired := by
  simp [validateToken, h]

/-- Witness for C5 at a concrete expired entry. -/
theorem validateToken_expired_witness :
    validateToken 101 (some ⟨100, 10, "image/png"⟩) ⟨10, "image/png", "p"⟩
      = .error .tokenExpired :=
  validateToken_expired 101 ⟨100, 10, "image/png"⟩ ⟨10, "image/png", "p"⟩
    (by decide)

/-- Claim C3 as stated is false: with a presigned contentLength of 0 the
size check is skipped entirely (the guard tests JavaScript truthiness,
and 0 is falsy), so an upload of 5 bytes against a presigned
contentLength of 0 validates successfully instead of failing with
SizeMismatch. -/
theorem validateToken_sizeZero_counterexample :
    (0 : Nat) ≠ 5 ∧
      validateToken 50 (some ⟨100, 0, "text/plain"⟩) ⟨5, "text/plain", "p"⟩
        = .ok () := by
  constructor
  · decide
  · rfl

/-- Claim C3 amended: when the cached entry exists, is unexpired, and its
contentLength is nonzero and differs from the uploaded size, validation
fails with SizeMismatch; a presigned contentLength of 0 disables the
size check. -/
theorem validateToken_sizeMismatch (now : Nat) (m : CachedUploadValidation)
    (file : ILocalFileUpload) (hexp : now ≤ m.expiresDate)
    (hnz : m.contentLength ≠ 0) (hne : m.contentLength ≠ file.size) :
    validateToken now (some m) file = .error .sizeMismatch := by
  simp [validateToken, Nat.not_lt.mpr hexp, hnz, hne]

/-- Witness for the amended C3 at a concrete mismatched upload. -/
theorem validateToken_sizeMismatch_witness :
    validateToken 50 (some ⟨100, 1024, "image/png"⟩) ⟨5, "image/png", "p"⟩
      = .error .sizeMismatch :=
  validateToken_sizeMismatch 50 ⟨100, 1024, "image/png"⟩ ⟨5, "image/png", "p"⟩
    (by decide) (by decide) (by decide)

/-- Claim C4 as stated is false: the type check is governed by the
presence of the uploaded mimetype, not of the cached contentType.  Here
the cached contentType is present (nonempty) and differs from the
uploaded mimetype (which is empty), the entry is unexpired and the size
matches, yet validation succeeds instead of failing with TypeMismatch. -/
theorem validateToken_type_counterexample :
    ("image/png" : String) ≠ "" ∧
    (⟨5, "", "p"⟩ : ILocalFileUpload).mimetype ≠ "image/png" ∧
      validateToken 50 (some ⟨100, 5, "image/png"⟩) ⟨5, "", "p"⟩ = .ok () := by
  refine ⟨by decide, by decide, rfl⟩

/-- Claim C4 amended: when the cached entry exists, is unexpired and
passes the size check, validation fails with TypeMismatch exactly when
the uploaded mimetype is present (nonempty) and differs from the cached
contentType: the check is governed by the presence of the uploaded
mimetype, not by the presence of the cached contentType. -/
theorem validateToken_typeMismatch_iff (now : Nat)
    (m : CachedUploadValidation) (file : ILocalFileUpload)
    (hexp : now ≤ m.expiresDate)
    (hsz : ¬(m.contentLength ≠ 0 ∧ m.contentLength ≠ file.size)) :
    validateToken now (some m) file = .error .typeMismatch ↔
      (file.mimetype ≠ "" ∧ file.mimetype ≠ m.contentType) := by
  by_cases hty : file.mimetype ≠ "" ∧ file.mimetype ≠ m.contentType
  · simp [validateToken, Nat.not_lt.mpr hexp, hsz, hty]
  · simp [validateToken, Nat.not_lt.mpr hexp, hsz, hty]

/-- Witness for the amended C4: a concrete mismatching mimetype is
rejected with TypeMismatch. -/
theorem validateToken_typeMismatch_iff_witness :
    validateToken 50 (some ⟨100, 5, "image/png"⟩) ⟨5, "text/plain", "p"⟩
      = .error .typeMismatch :=
  (validateToken_typeMismatch_iff 50 ⟨100, 5, "image/png"⟩
      ⟨5, "text/plain", "p"⟩ (by decide) (by decide)).mpr
    ⟨by decide, by decide⟩

/-- Claim C1 fails on the code: the throw of the TokenExpired exception
sits inside the same try block whose catch rethrows every error as
InvalidToken, so a well-formed read token that has merely expired
(payload expiresDate 5 at current time 10) surfaces InvalidToken to the
caller, although the try body itself raised TokenExpired as the claim
and the source intend. -/
theorem verifyReadToken_expired_surfaces_invalidToken :
    verifyReadTokenInner 0 10 (Encryptor.encrypt 0 ⟨5, none⟩)
        = .error .tokenExpired ∧
      verifyReadToken 0 10 (Encryptor.encrypt 0 ⟨5, none⟩)
        = .error .invalidToken := by
  exact ⟨rfl, rfl⟩

/-- The parts of claim C1 that do hold: decryption failure surfaces
InvalidToken, and a token whose expiry is in the future or equals -1
(never expires) succeeds and returns the embedded response headers. -/
theorem verifyReadToken_ok (key : Nat) (now : Int) (p : ITokenEncryptor)
    (h : ¬(p.expiresDate > 0 ∧ now > p.expiresDate)) :
    verifyReadToken key now (Encryptor.encrypt key p) = .ok p.respHeaders := by
  simp [verifyReadToken, verifyReadTokenInner, Encryptor.decrypt,
    Encryptor.encrypt, h]

/-- Closed instance of verifyReadToken_ok: a never-expiring token
(expiresDate -1) succeeds at any time and returns the headers. -/
theorem verifyReadToken_ok_witness :
    verifyReadToken 3 1000000 (Encryptor.encrypt 3 ⟨-1, some [("Content-Disposition", "inline")]⟩)
      = .ok (some [("Content-Disposition", "inline")]) :=
  verifyReadToken_ok 3 1000000 ⟨-1, some [("Content-Disposition", "inline")]⟩
    (by decide)

/-- Claim C9: decrypting the token produced by encrypting any read-access
payload returns the original payload, expiry and headers included. -/
theorem encrypt_decrypt_roundtrip (key : Nat) (p : ITokenEncryptor) :
    Encryptor.decrypt key (Encryptor.encrypt key p) = .ok p := by
  simp [Encryptor.decrypt, Encryptor.encrypt]

/-- Claim C2 fails on the code: when the source stream of uploadFile
errors after 7 bytes were flushed to the temporary file, the cleanup
deletes the destination path argument instead of the temporary path, so
the partially written bytes remain in the temporary directory while the
operation rejects.  The claim says the temporary file is deleted and
zero bytes remain. -/
theorem uploadFile_streamError_leaves_tempFile :
    ((uploadFileStream (fun n => toString n) (fun _ => none) true
        "/tmp/.temporary" "/storage" ".assets" "bucket" "obj" "rand"
        ⟨7, true⟩).1 (pathJoin "/tmp/.temporary" "rand") = some 7) ∧
      ((uploadFileStream (fun n => toString n) (fun _ => none) true
        "/tmp/.temporary" "/storage" ".assets" "bucket" "obj" "rand"
        ⟨7, true⟩).2 = .error .ioError) := by
  exact ⟨by decide, rfl⟩

/-- In saveTemporaryFile, by contrast, the error cleanup deletes the
temporary file itself: after a request or sink error nothing remains at
the temporary path. -/
theorem saveTemporaryFile_error_cleans (fs : FS)
    (temporaryDir tempName : String) (ev : ReqEvents)
    (herr : ev.errored = true) :
    (saveTemporaryFile fs temporaryDir tempName ev).1
        (pathJoin temporaryDir tempName) = none ∧
      (saveTemporaryFile fs temporaryDir tempName ev).2 = .error .ioError := by
  simp [saveTemporaryFile, herr, deleteFile, FS.setFile, FS.removeFile]

/-- Closed instance of saveTemporaryFile_error_cleans. -/
theorem saveTemporaryFile_error_cleans_witness :
    (saveTemporaryFile (fun _ => none) "/tmp/.temporary" "rand"
        ⟨7, "image/png", true⟩).1 (pathJoin "/tmp/.temporary" "rand") = none ∧
      (saveTemporaryFile (fun _ => none) "/tmp/.temporary" "rand"
        ⟨7, "image/png", true⟩).2 = .error .ioError :=
  saveTemporaryFile_error_cleans (fun _ => none) "/tmp/.temporary" "rand"
    ⟨7, "image/png", true⟩ rfl

/-- Claim C7: for save (the relocate step), when the copy fails the
whole state is unchanged, so the temporary file at filePath is left in
place, and IOError is surfaced; when the copy succeeds, the temporary
file is removed and the stored file of the same size exists at the
destination path, with the relative storage path returned. -/
theorem save_relocate_spec (fs : FS) (storageDir pathCfg filePath rename : String)
    (n : Nat) (hsrc : fs filePath = some n)
    (hne : filePath ≠ pathJoin storageDir rename) :
    ((save fs false storageDir pathCfg filePath rename).1 = fs ∧
      (save fs false storageDir pathCfg filePath rename).1 filePath = some n ∧
      (save fs false storageDir pathCfg filePath rename).2 = .error .ioError) ∧
    ((save fs true storageDir pathCfg filePath rename).1 filePath = none ∧
      (save fs true storageDir pathCfg filePath rename).1
          (pathJoin storageDir rename) = some n ∧
      (save fs true storageDir pathCfg filePath rename).2
          = .ok (pathJoin pathCfg rename)) := by
  refine ⟨⟨rfl, hsrc, rfl⟩, ?_, ?_, ?_⟩
  · simp [save, hsrc, FS.removeFile]
  · simp [save, hsrc, FS.removeFile, FS.setFile, Ne.symm hne]
  · simp [save, hsrc]

/-- Witness for C7 at a concrete one-file state. -/
theorem save_relocate_spec_witness :
    ((fun q => if q = "/tmp/.temporary/a" then some 3 else none) :
        FS) "/tmp/.temporary/a" = some 3 ∧
      (save (fun q => if q = "/tmp/.temporary/a" then some 3 else none) true
          "/storage" ".assets" "/tmp/.temporary/a" "bucket/obj").1
          (pathJoin "/storage" "bucket/obj") = some 3 := by
  refine ⟨by decide, ?_⟩
  exact (save_relocate_spec
    (fun q => if q = "/tmp/.temporary/a" then some 3 else none)
    "/storage" ".assets" "/tmp/.temporary/a" "bucket/obj" 3
    (by decide) (by decide)).2.2.1

/-- Claim C6 fails on the code: getObjectMeta wraps no exception handler
around the sharp probe, so for an image-typed object whose probe fails,
getObjectMeta itself fails instead of succeeding without width and
height. -/
theorem getObjectMeta_probeFail_counterexample :
    getObjectMeta (fun _ => .error ()) 0 "/storage"
        (some ⟨"image/png", "h1", 3⟩) "bucket" "obj"
      = .error .probeError := rfl

/-- Claim C6 amended: a metadata extraction failure is not swallowed.
When the cached upload entry exists and its mimetype is an image type,
a failing probe makes getObjectMeta fail with the propagated probe
error; when the mimetype is not an image type, the probe never runs and
getObjectMeta succeeds with the hash, mimetype, size and url of the
entry and no width or height.  The persisted object itself is untouched
either way (getObjectMeta performs no filesystem write). -/
theorem getObjectMeta_probe_spec
    (probe : String → Except Unit (Option Nat × Option Nat)) (key : Nat)
    (storageDir : String) (c : UploadCacheEntry) (bucket path : String) :
    (jsStartsWith c.mimetype "image/" = true →
      probe (pathJoin (pathJoin storageDir bucket) path) = .error () →
        getObjectMeta probe key storageDir (some c) bucket path
          = .error .probeError) ∧
    (jsStartsWith c.mimetype "image/" = false →
      getObjectMeta probe key storageDir (some c) bucket path
        = .ok ⟨c.hash, c.mimetype, c.size,
            getUrl key bucket path
              ⟨-1, some [("Content-Type", c.mimetype)]⟩, none, none⟩) := by
  constructor
  · intro himg hfail
    simp [getObjectMeta, himg, getFileMate, hfail]
  · intro himg
    simp [getObjectMeta, himg]

/-- Witness for the amended C6: both branches at concrete entries. -/
theorem getObjectMeta_probe_spec_witness :
    (getObjectMeta (fun _ => .error ()) 0 "/storage"
        (some ⟨"image/jpeg", "h2", 5⟩) "bucket" "obj2"
      = .error .probeError) ∧
    (getObjectMeta (fun _ => .error ()) 0 "/storage"
        (some ⟨"text/plain", "h3", 5⟩) "bucket" "obj3"
      = .ok ⟨"h3", "text/plain", 5,
          getUrl 0 "bucket" "obj3"
            ⟨-1, some [("Content-Type", "text/plain")]⟩, none, none⟩) :=
  ⟨(getObjectMeta_probe_spec (fun _ => .error ()) 0 "/storage"
      ⟨"image/jpeg", "h2", 5⟩ "bucket" "obj2").1 (by decide) rfl,
   (getObjectMeta_probe_spec (fun _ => .error ()) 0 "/storage"
      ⟨"text/plain", "h3", 5⟩ "bucket" "obj3").2 (by decide)⟩

/-- Claim C8: presigned derives the destination path as the directory
joined with the hash when supplied, else with the generated token;
writes to the TTL cache, under the key derived from the token and with
TTL equal to expiresIn (the requested value or the configured default),
the entry with expiresDate = now + expiresIn and the declared
contentLength and contentType; and answers with the token, upload
method PUT and request headers carrying the declared Content-Type and
Content-Length. -/
theorem presigned_spec (bucket dir : String) (params : IPresignParams)
    (token : String) (now defaultExpire : Nat) :
    (presigned bucket dir params token now defaultExpire).2.path
        = pathJoin dir (params.hash.getD token) ∧
    (presigned bucket dir params token now defaultExpire).1.key
        = "attachment:local-signature:" ++ token ∧
    (presigned bucket dir params token now defaultExpire).1.ttl
        = params.expiresIn.getD defaultExpire ∧
    (presigned bucket dir params token now defaultExpire).1.value
        = ⟨now + params.expiresIn.getD defaultExpire,
            params.contentLength, params.contentType⟩ ∧
    (presigned bucket dir params token now defaultExpire).2.token = token ∧
    (presigned bucket dir params token now defaultExpire).2.url
        = getUploadUrl token ∧
    (presigned bucket dir params token now defaultExpire).2.uploadMethod
        = "PUT" ∧
    (presigned bucket dir params token now defaultExpire).2.requestHeaders
        = ⟨params.contentType, params.contentLength⟩ :=
  ⟨rfl, rfl, rfl, rfl, rfl, rfl, rfl, rfl⟩

/-- Claim C10: presigned never reads its bucket argument, so two calls
differing only in the bucket produce the identical cache write and the
identical response. -/
theorem presigned_bucket_independent (b1 b2 dir : String)
    (params : IPresignParams) (token : String) (now defaultExpire : Nat) :
    presigned b1 dir params token now defaultExpire
      = presigned b2 dir params token now defaultExpire := rfl

end LocalStorage
